import Mathlib

set_option maxHeartbeats 1000000

/-! Shallow embedding of the storage adapters of the repository:
the in-memory adapter (src/memory-adapter.ts), the SQLite adapter
(src/sqlite-adapter-legacy.ts) and the fallback variant of the SQLite
adapter (the unnamed source file), as pure functions over explicit
store states.  Arrays become lists, absent/undefined JS values become
Option, a thrown exception becomes JsResult.thrown, and calls that
bind fresh random or database-generated identifiers take the generated
identifier as an explicit argument. -/

/-- A JavaScript Date value, identified by its unix-epoch milliseconds. -/
structure JsDate where
  ms : Int
deriving DecidableEq, Repr

/-- The value found in the expires field of a session handed to the
SQLite createSession: a Date, a number (epoch seconds), or anything else
(undefined, null, string, ...), which the code rejects. -/
inductive ExpiresValue where
  | date (d : JsDate)
  | num (n : Int)
  | other
deriving DecidableEq, Repr

/-- Math.round(ms / 1000) on an integer milliseconds value: JavaScript
Math.round rounds half toward positive infinity. -/
def jsRoundDiv1000 (ms : Int) : Int := (ms + 500).fdiv 1000

/-- A string-typed JS value is falsy when it is absent (undefined or
null) or the empty string. -/
def jsFalsyStr : Option String → Bool
  | none => true
  | some s => s.isEmpty

/-- Outcome of a JS call that can throw. -/
inductive JsResult (α : Type) where
  | ok (v : α)
  | thrown
deriving DecidableEq, Repr

/-- A user object in the AdapterUser shape.  emailVerified is a nullable
timestamp, carried as its epoch value. -/
structure UserObj where
  id : String
  name : Option String
  email : Option String
  emailVerified : Option Int
  image : Option String
deriving DecidableEq, Repr

/-- A linked provider account object in the AdapterAccount shape. -/
structure AccountObj where
  id : String
  userId : String
  provider : String
  providerAccountId : String
  type : Option String
  access_token : Option String
  expires_at : Option Int
  refresh_token : Option String
  id_token : Option String
  scope : Option String
  session_state : Option String
  token_type : Option String
deriving DecidableEq, Repr

/-- A session object in the AdapterSession shape; userId and expires may
be absent on partial inputs, mirroring open JS objects. -/
structure SessionObj where
  sessionToken : String
  userId : Option String
  expires : Option ExpiresValue
deriving DecidableEq, Repr

/-- A verification token object; fields may be absent on malformed
input. -/
structure VTokObj where
  identifier : Option String
  expires : Option Int
  token : Option String
deriving DecidableEq, Repr

/-- The (provider, providerAccountId) pair by which the adapter contract
keys linked accounts. -/
structure ProviderKey where
  provider : String
  providerAccountId : String
deriving DecidableEq, Repr

/-- The four module-level collections of the in-memory adapter. -/
structure MemState where
  users : List UserObj
  accounts : List AccountObj
  sessions : List SessionObj
  verificationTokens : List VTokObj
deriving DecidableEq, Repr

/-- Model of the deletion pattern `arr.splice(arr.findIndex(p), 1)` used
throughout the in-memory adapter.  When some element matches, findIndex
yields the index of the first match and splice removes exactly that
element.  When no element matches, findIndex yields -1, and
Array.prototype.splice(-1, 1) removes the last element of a non-empty
array (and nothing from an empty one). -/
def jsFindSplice (l : List α) (p : α → Bool) : List α :=
  if l.any p then l.eraseP p else l.dropLast

namespace MemoryAdapter

/-- createUser of the in-memory adapter: overwrites the id field of the
input with a freshly generated id (the random base-36 part is the
argument rnd) and pushes the object onto the users collection. -/
def createUser (st : MemState) (data : UserObj) (rnd : String) :
    MemState × UserObj :=
  let u := { data with id := "userId_" ++ rnd }
  ({ st with users := st.users ++ [u] }, u)

def getUser (st : MemState) (id : String) : Option UserObj :=
  st.users.find? (fun u => u.id == id)

def getUserByEmail (st : MemState) (email : String) : Option UserObj :=
  st.users.find? (fun u => u.email == some email)

/-- getUserByAccount of the in-memory adapter.  The account is looked up
by providerAccountId alone; the provider field of the key is not
consulted by the source. -/
def getUserByAccount (st : MemState) (k : ProviderKey) : Option UserObj :=
  match st.accounts.find? (fun a => a.providerAccountId == k.providerAccountId) with
  | some a => st.users.find? (fun u => u.id == a.userId)
  | none => none

/-- deleteUser: find the user (the returned value), then
users.splice(users.findIndex(...), 1). -/
def deleteUser (st : MemState) (id : String) : MemState × Option UserObj :=
  ({ st with users := jsFindSplice st.users (fun u => u.id == id) },
   st.users.find? (fun u => u.id == id))

def createSession (st : MemState) (data : SessionObj) : MemState × SessionObj :=
  ({ st with sessions := st.sessions ++ [data] }, data)

/-- Object.assign of a session patch onto an existing session object:
the fields present on the patch overwrite those of the target. -/
def assignSession (s p : SessionObj) : SessionObj :=
  { sessionToken := p.sessionToken,
    userId := p.userId.orElse (fun _ => s.userId),
    expires := p.expires.orElse (fun _ => s.expires) }

/-- Replace the first element satisfying p by f of it: the in-place
mutation of the object found by Array.prototype.find. -/
def mutateFirst (p : α → Bool) (f : α → α) : List α → List α
  | [] => []
  | a :: t => if p a then f a :: t else a :: mutateFirst p f t

/-- updateSession: merge the patch onto the first stored session with
the same token if one exists, else onto the patch itself (which is then
returned without being stored). -/
def updateSession (st : MemState) (p : SessionObj) : MemState × SessionObj :=
  match st.sessions.find? (fun s => s.sessionToken == p.sessionToken) with
  | some s =>
      let mutated := mutateFirst (fun x => x.sessionToken == p.sessionToken)
        (fun x => assignSession x p) st.sessions
      ({ st with sessions := mutated }, assignSession s p)
  | none => (st, assignSession p p)

def deleteSession (st : MemState) (tok : String) : MemState × Option SessionObj :=
  ({ st with sessions := jsFindSplice st.sessions (fun s => s.sessionToken == tok) },
   st.sessions.find? (fun s => s.sessionToken == tok))

/-- linkAccount: overwrites the id field with a freshly generated id and
pushes the account. -/
def linkAccount (st : MemState) (data : AccountObj) (rnd : String) :
    MemState × AccountObj :=
  let a := { data with id := "accountId_" ++ rnd }
  ({ st with accounts := st.accounts ++ [a] }, a)

/-- unlinkAccount: like getUserByAccount, matches on providerAccountId
alone and removes via splice(findIndex(...), 1). -/
def unlinkAccount (st : MemState) (k : ProviderKey) : MemState × Option AccountObj :=
  let remaining := jsFindSplice st.accounts
    (fun a => a.providerAccountId == k.providerAccountId)
  ({ st with accounts := remaining },
   st.accounts.find? (fun a => a.providerAccountId == k.providerAccountId))

/-- getSessionAndUser: find the session by token, then the user by the
session owner id; null unless both are found. -/
def getSessionAndUser (st : MemState) (tok : String) :
    Option (SessionObj × UserObj) :=
  match st.sessions.find? (fun s => s.sessionToken == tok) with
  | some s =>
      match s.userId with
      | some uid => (st.users.find? (fun u => u.id == uid)).map (fun u => (s, u))
      | none => none
  | none => none

def createVerificationToken (st : MemState) (t : VTokObj) : MemState × VTokObj :=
  ({ st with verificationTokens := st.verificationTokens ++ [t] }, t)

/-- useVerificationToken: find by the (identifier, token) pair, remove
via splice(findIndex(...), 1), return the found token or null. -/
def useVerificationToken (st : MemState) (identifier token : String) :
    MemState × Option VTokObj :=
  let remaining := jsFindSplice st.verificationTokens
    (fun t => t.identifier == some identifier && t.token == some token)
  ({ st with verificationTokens := remaining },
   st.verificationTokens.find?
      (fun t => t.identifier == some identifier && t.token == some token))

end MemoryAdapter

/-- A row of the users table, with the column names of the SQLite
schema; nullable columns are Option. -/
structure SqlUserRow where
  user_id : String
  name : Option String
  email : Option String
  email_verified_at : Option Int
  avatar : Option String
deriving DecidableEq, Repr

/-- A row of the login_provider_accounts table. -/
structure SqlAccountRow where
  login_id : String
  user_id : String
  provider : String
  type : Option String
  provider_user_id : String
  access_token : Option String
  expires_at : Option Int
  refresh_token : Option String
  id_token : Option String
  scope : Option String
  session_state : Option String
  token_type : Option String
deriving DecidableEq, Repr

/-- A row of the sessions table.  expires_at holds the stored datetime
value identified by the epoch seconds it encodes: datetime(n, unixepoch)
on write and unixepoch(expires_at) on read round-trip the integer n. -/
structure SqlSessionRow where
  session_id : String
  user_id : String
  expires_at : Int
  session_token : String
deriving DecidableEq, Repr

/-- A row of the verification_tokens table. -/
structure SqlVTokRow where
  verification_token_id : String
  expires_at : Int
  token : String
deriving DecidableEq, Repr

/-- The four tables of the SQLite database. -/
structure SqlDb where
  users : List SqlUserRow
  accounts : List SqlAccountRow
  sessions : List SqlSessionRow
  tokens : List SqlVTokRow
deriving DecidableEq, Repr

/-- Input shape of createUser (an AdapterUser without an id). -/
structure UserInput where
  name : Option String
  email : Option String
  emailVerified : Option Int
  image : Option String
deriving DecidableEq, Repr

/-- Input shape of the SQLite createSession. -/
structure SessionInput where
  sessionToken : Option String
  userId : Option String
  expires : ExpiresValue
deriving DecidableEq, Repr

/-- Input shape of the SQLite updateSession: a partial session carrying
at least a sessionToken; the expires field, when present, is the epoch
number bound into datetime(?, unixepoch). -/
structure SessionPatch where
  sessionToken : Option String
  userId : Option String
  expires : Option Int
deriving DecidableEq, Repr

/-- The session object returned by the SQLite createSession and
updateSession: the RETURNING row, whose expires column (epoch seconds n)
the code then overwrites with new Date(n), a Date whose epoch
milliseconds are n.  The fallback variant returns no id column. -/
structure RetSession where
  id : Option String
  sessionToken : String
  userId : String
  expires : JsDate
deriving DecidableEq, Repr

namespace SQLiteAdapter

/-- createUser: INSERT INTO users ... RETURNING; the database-generated
user_id is the argument newId. -/
def createUser (db : SqlDb) (newId : String) (u : UserInput) :
    SqlDb × SqlUserRow :=
  let row : SqlUserRow := ⟨newId, u.name, u.email, u.emailVerified, u.image⟩
  ({ db with users := db.users ++ [row] }, row)

/-- getUser: SELECT ... WHERE user_id = ?; .get yields the first row or
undefined. -/
def getUser (db : SqlDb) (id : String) : Option SqlUserRow :=
  db.users.find? (fun r => r.user_id == id)

def getUserByEmail (db : SqlDb) (email : String) : Option SqlUserRow :=
  db.users.find? (fun r => r.email == some email)

/-- getUserByAccount: join of users and login_provider_accounts on
user_id, filtered by provider_user_id and provider; .get yields the
first row of the result. -/
def getUserByAccount (db : SqlDb) (providerAccountId provider : String) :
    Option SqlUserRow :=
  (db.users.flatMap (fun u =>
    (db.accounts.filter (fun a =>
      u.user_id == a.user_id && a.provider_user_id == providerAccountId &&
        a.provider == provider)).map (fun _ => u))).head?

/-- deleteUser: three sequential DELETEs on users,
login_provider_accounts and sessions by user_id. -/
def deleteUser (db : SqlDb) (userId : String) : SqlDb :=
  { db with
    users := db.users.filter (fun r => !(r.user_id == userId)),
    accounts := db.accounts.filter (fun r => !(r.user_id == userId)),
    sessions := db.sessions.filter (fun r => !(r.user_id == userId)) }

/-- linkAccount: INSERT INTO login_provider_accounts; the generated
login_id is the argument newLoginId.  The source computes the RETURNING
row but does not return it. -/
def linkAccount (db : SqlDb) (newLoginId : String) (a : AccountObj) : SqlDb :=
  let row : SqlAccountRow := ⟨newLoginId, a.userId, a.provider, a.type,
    a.providerAccountId, a.access_token, a.expires_at, a.refresh_token,
    a.id_token, a.scope, a.session_state, a.token_type⟩
  { db with accounts := db.accounts ++ [row] }

/-- unlinkAccount: DELETE ... WHERE provider_user_id = ? AND
provider = ?. -/
def unlinkAccount (db : SqlDb) (providerAccountId provider : String) : SqlDb :=
  { db with accounts := db.accounts.filter (fun a =>
      !(a.provider_user_id == providerAccountId && a.provider == provider)) }

/-- Shared tail of createSession once the expires value has been
converted to epoch seconds: the userId/sessionToken falsiness check,
then INSERT ... RETURNING, then rv.expires = new Date(rv.expires). -/
def createSessionAt (db : SqlDb) (newSessionId : String) (inp : SessionInput)
    (expiresAt : Int) : SqlDb × JsResult RetSession :=
  match inp.userId, inp.sessionToken with
  | some uid, some tok =>
      if uid.isEmpty || tok.isEmpty then (db, .thrown)
      else
        let row : SqlSessionRow := ⟨newSessionId, uid, expiresAt, tok⟩
        ({ db with sessions := db.sessions ++ [row] },
         .ok ⟨some newSessionId, tok, uid, ⟨expiresAt⟩⟩)
  | _, _ => (db, .thrown)

/-- createSession: converts a Date to epoch seconds with
Math.round(getTime() / 1000), accepts a number as-is, and throws on
anything else. -/
def createSession (db : SqlDb) (newSessionId : String) (inp : SessionInput) :
    SqlDb × JsResult RetSession :=
  match inp.expires with
  | .other => (db, .thrown)
  | .date d => createSessionAt db newSessionId inp (jsRoundDiv1000 d.ms)
  | .num n => createSessionAt db newSessionId inp n

/-- getSessionAndUser: null on a falsy token, else find the session by
token (null if none), then the user by the session owner (null if
none).  The commented-out Date conversion leaves expires as the raw
epoch value. -/
def getSessionAndUser (db : SqlDb) (sessionToken : Option String) :
    Option (SqlSessionRow × SqlUserRow) :=
  match sessionToken with
  | none => none
  | some tok =>
    if tok.isEmpty then none
    else
      match db.sessions.find? (fun s => s.session_token == tok) with
      | none => none
      | some s =>
          match db.users.find? (fun u => u.user_id == s.user_id) with
          | none => none
          | some u => some (s, u)

/-- updateSession.  The merged userId/expires values are bound into the
UPDATE; binding an absent value (undefined) makes the better-sqlite3
driver throw before the statement runs.  When the UPDATE matches no row,
RETURNING yields no row and the subsequent assignment
rv.expires = new Date(rv.expires) throws on undefined. -/
def updateSession (db : SqlDb) (p : SessionPatch) :
    SqlDb × JsResult (Option RetSession) :=
  match p.sessionToken with
  | none => (db, .ok none)
  | some tok =>
    if tok.isEmpty then (db, .ok none)
    else
      let orig := db.sessions.find? (fun s => s.session_token == tok)
      let mUserId := p.userId.orElse (fun _ => orig.map (fun s => s.user_id))
      let mExpires := p.expires.orElse (fun _ => orig.map (fun s => s.expires_at))
      match mUserId, mExpires with
      | some uid, some exp =>
          match orig with
          | none => (db, .thrown)
          | some s0 =>
              let updated := db.sessions.map (fun s =>
                if s.session_token == tok
                then { s with user_id := uid, expires_at := exp } else s)
              ({ db with sessions := updated },
               .ok (some ⟨some s0.session_id, tok, uid, ⟨exp⟩⟩))
      | _, _ => (db, .thrown)

def deleteSession (db : SqlDb) (sessionToken : String) : SqlDb :=
  { db with sessions := db.sessions.filter (fun s =>
      !(s.session_token == sessionToken)) }

/-- createVerificationToken has no explicit validation; a missing field
binds undefined, which the better-sqlite3 driver rejects by throwing
before the INSERT runs. -/
def createVerificationToken (db : SqlDb) (t : VTokObj) :
    SqlDb × JsResult SqlVTokRow :=
  match t.identifier, t.expires, t.token with
  | some i, some e, some k =>
      let row : SqlVTokRow := ⟨i, e, k⟩
      ({ db with tokens := db.tokens ++ [row] }, .ok row)
  | _, _, _ => (db, .thrown)

/-- useVerificationToken: DELETE ... WHERE verification_token_id = ? AND
token = ? RETURNING; .get yields the first deleted row or undefined. -/
def useVerificationToken (db : SqlDb) (identifier token : String) :
    SqlDb × Option SqlVTokRow :=
  let q := fun (r : SqlVTokRow) =>
    r.verification_token_id == identifier && r.token == token
  ({ db with tokens := db.tokens.filter (fun r => !(q r)) },
   (db.tokens.filter q).head?)

end SQLiteAdapter

/-- A partial user passed to updateUser: the outer Option is JS field
presence (absent fields do not overwrite on merge and cannot be bound),
the inner Option is null. -/
structure UserPatch where
  id : Option String
  name : Option (Option String)
  email : Option (Option String)
  emailVerified : Option (Option Int)
  image : Option (Option String)
deriving DecidableEq, Repr

/-- State of the fallback variant of the SQLite adapter: the SQLite
database together with the store of the secondary adapter.  In the
source the secondary adapter memDB is a Proxy every method of which
returns null; it reads and writes no state, so every operation below
passes mem through unchanged and every memRv it binds is none; the
source line wiring in the real MemoryAdapter is commented out. -/
structure FbState where
  sql : SqlDb
  mem : MemState
deriving DecidableEq, Repr

namespace FallbackSQLiteAdapter

/-- createUser: the memDB.createUser stub call has no effect and its
result is discarded; then the same INSERT ... RETURNING as the legacy
adapter. -/
def createUser (st : FbState) (newId : String) (u : UserInput) :
    FbState × SqlUserRow :=
  let row : SqlUserRow := ⟨newId, u.name, u.email, u.emailVerified, u.image⟩
  ({ st with sql := { st.sql with users := st.sql.users ++ [row] } }, row)

/-- getUser: the relational read, falling back to the stub result
(null) when it yields no row: return rv ?? memDB.getUser(id). -/
def getUser (st : FbState) (id : String) : Option SqlUserRow :=
  let rv := st.sql.users.find? (fun r => r.user_id == id)
  let memRv : Option SqlUserRow := none
  rv.orElse (fun _ => memRv)

def getUserByEmail (st : FbState) (email : String) : Option SqlUserRow :=
  let rv := st.sql.users.find? (fun r => r.email == some email)
  let memRv : Option SqlUserRow := none
  rv.orElse (fun _ => memRv)

def getUserByAccount (st : FbState) (k : ProviderKey) : Option SqlUserRow :=
  let memRv : Option SqlUserRow := none
  let rv := (st.sql.users.flatMap (fun u =>
    (st.sql.accounts.filter (fun a =>
      u.user_id == a.user_id && a.provider_user_id == k.providerAccountId &&
        a.provider == k.provider)).map (fun _ => u))).head?
  rv.orElse (fun _ => memRv)

/-- updateUser: stub call first, throw on a falsy id, merge the stored
row with the present fields of the patch, UPDATE ... RETURNING, and
return rv ?? memRv.  A merged field that is still absent (no stored row
and not on the patch) binds undefined, which throws. -/
def updateUser (st : FbState) (p : UserPatch) :
    FbState × JsResult (Option SqlUserRow) :=
  let memRv : Option SqlUserRow := none
  match p.id with
  | none => (st, .thrown)
  | some uid =>
    if uid.isEmpty then (st, .thrown)
    else
      let oldUser := st.sql.users.find? (fun r => r.user_id == uid)
      let mName := p.name.orElse (fun _ => oldUser.map (fun r => r.name))
      let mEmail := p.email.orElse (fun _ => oldUser.map (fun r => r.email))
      let mEv := p.emailVerified.orElse
        (fun _ => oldUser.map (fun r => r.email_verified_at))
      let mImage := p.image.orElse (fun _ => oldUser.map (fun r => r.avatar))
      match mName, mEmail, mEv, mImage with
      | some nm, some em, some ev, some im =>
          match oldUser with
          | none => (st, .ok (Option.orElse none (fun _ => memRv)))
          | some s0 =>
              let upd := fun (r : SqlUserRow) =>
                { r with name := nm, email := em, email_verified_at := ev, avatar := im }
              let updated := st.sql.users.map (fun r =>
                if r.user_id == uid then upd r else r)
              ({ st with sql := { st.sql with users := updated } },
               .ok (Option.orElse (some (upd s0)) (fun _ => memRv)))
      | _, _, _, _ => (st, .thrown)

/-- deleteUser: stub call, then the three DELETEs of the legacy
adapter. -/
def deleteUser (st : FbState) (userId : String) : FbState :=
  let users := st.sql.users.filter (fun r => !(r.user_id == userId))
  let accounts := st.sql.accounts.filter (fun r => !(r.user_id == userId))
  let sessions := st.sql.sessions.filter (fun r => !(r.user_id == userId))
  { st with sql := { st.sql with users := users, accounts := accounts, sessions := sessions } }

/-- Shared tail of the fallback createSession; unlike the legacy
adapter its RETURNING clause carries no session_id column, so the
returned object has no id. -/
def createSessionAt (st : FbState) (newSessionId : String) (inp : SessionInput)
    (expiresAt : Int) : FbState × JsResult RetSession :=
  match inp.userId, inp.sessionToken with
  | some uid, some tok =>
      if uid.isEmpty || tok.isEmpty then (st, .thrown)
      else
        let row : SqlSessionRow := ⟨newSessionId, uid, expiresAt, tok⟩
        ({ st with sql := { st.sql with sessions := st.sql.sessions ++ [row] } },
         .ok ⟨none, tok, uid, ⟨expiresAt⟩⟩)
  | _, _ => (st, .thrown)

/-- createSession: stub call, the same expires conversion and
validation as the legacy adapter, then INSERT ... RETURNING and
rv.expires = new Date(rv.expires). -/
def createSession (st : FbState) (newSessionId : String) (inp : SessionInput) :
    FbState × JsResult RetSession :=
  match inp.expires with
  | .other => (st, .thrown)
  | .date d => createSessionAt st newSessionId inp (jsRoundDiv1000 d.ms)
  | .num n => createSessionAt st newSessionId inp n

/-- updateSession: stub call, then the same logic as the legacy
adapter, with return rv ?? memRv on the success path. -/
def updateSession (st : FbState) (p : SessionPatch) :
    FbState × JsResult (Option RetSession) :=
  let memRv : Option RetSession := none
  match p.sessionToken with
  | none => (st, .ok none)
  | some tok =>
    if tok.isEmpty then (st, .ok none)
    else
      let orig := st.sql.sessions.find? (fun s => s.session_token == tok)
      let mUserId := p.userId.orElse (fun _ => orig.map (fun s => s.user_id))
      let mExpires := p.expires.orElse (fun _ => orig.map (fun s => s.expires_at))
      match mUserId, mExpires with
      | some uid, some exp =>
          match orig with
          | none => (st, .thrown)
          | some s0 =>
              let updated := st.sql.sessions.map (fun s =>
                if s.session_token == tok
                then { s with user_id := uid, expires_at := exp } else s)
              ({ st with sql := { st.sql with sessions := updated } },
               .ok (Option.orElse
                 (some (⟨some s0.session_id, tok, uid, ⟨exp⟩⟩ : RetSession))
                 (fun _ => memRv)))
      | _, _ => (st, .thrown)

def deleteSession (st : FbState) (sessionToken : String) : FbState :=
  let sessions := st.sql.sessions.filter (fun s => !(s.session_token == sessionToken))
  { st with sql := { st.sql with sessions := sessions } }

def linkAccount (st : FbState) (newLoginId : String) (a : AccountObj) : FbState :=
  let row : SqlAccountRow := ⟨newLoginId, a.userId, a.provider, a.type,
    a.providerAccountId, a.access_token, a.expires_at, a.refresh_token,
    a.id_token, a.scope, a.session_state, a.token_type⟩
  { st with sql := { st.sql with accounts := st.sql.accounts ++ [row] } }

/-- unlinkAccount: stub call, then SELECT the first row matching both
provider_user_id and provider, DELETE all such rows, and return
rv ?? memRv. -/
def unlinkAccount (st : FbState) (k : ProviderKey) :
    FbState × Option SqlAccountRow :=
  let memRv : Option SqlAccountRow := none
  let q := fun (a : SqlAccountRow) =>
    a.provider_user_id == k.providerAccountId && a.provider == k.provider
  let rv := st.sql.accounts.find? q
  let remaining := st.sql.accounts.filter (fun a => !(q a))
  ({ st with sql := { st.sql with accounts := remaining } },
   rv.orElse (fun _ => memRv))

/-- getSessionAndUser: null on a falsy token; null directly (not the
stub result) when no session row or no user row is found; otherwise the
final ternary condition is necessarily true, so memRv is never
returned. -/
def getSessionAndUser (st : FbState) (sessionToken : Option String) :
    Option (SqlSessionRow × SqlUserRow) :=
  match sessionToken with
  | none => none
  | some tok =>
    if tok.isEmpty then none
    else
      match st.sql.sessions.find? (fun s => s.session_token == tok) with
      | none => none
      | some s =>
          match st.sql.users.find? (fun u => u.user_id == s.user_id) with
          | none => none
          | some u => some (s, u)

/-- createVerificationToken: stub call, then the same INSERT as the
legacy adapter; a missing field binds undefined, which throws. -/
def createVerificationToken (st : FbState) (t : VTokObj) :
    FbState × JsResult SqlVTokRow :=
  match t.identifier, t.expires, t.token with
  | some i, some e, some k =>
      let row : SqlVTokRow := ⟨i, e, k⟩
      ({ st with sql := { st.sql with tokens := st.sql.tokens ++ [row] } },
       .ok row)
  | _, _, _ => (st, .thrown)

/-- useVerificationToken: stub call, DELETE ... RETURNING, then
rv ?? memRv. -/
def useVerificationToken (st : FbState) (identifier token : String) :
    FbState × Option SqlVTokRow :=
  let memRv : Option SqlVTokRow := none
  let q := fun (r : SqlVTokRow) =>
    r.verification_token_id == identifier && r.token == token
  let remaining := st.sql.tokens.filter (fun r => !(q r))
  ({ st with sql := { st.sql with tokens := remaining } },
   ((st.sql.tokens.filter q).head?).orElse (fun _ => memRv))

end FallbackSQLiteAdapter

/-! Concrete states and records used by the examples and witnesses below. -/

def vt0 : VTokObj := ⟨some "i", some 5, some "t"⟩

def emptyMem : MemState := ⟨[], [], [], []⟩

def emptySql : SqlDb := ⟨[], [], [], []⟩

def stC1 : MemState := ⟨[], [], [], [vt0]⟩

def dbC1 : SqlDb := ⟨[], [], [], [⟨"i", 5, "t"⟩]⟩

def fbC1 : FbState := ⟨dbC1, emptyMem⟩

def sessA : SessionObj := ⟨"tokA", some "u1", some (.num 100)⟩

def sessRowA : SqlSessionRow := ⟨"s1", "u1", 5, "tokA"⟩

def stC6 : MemState := ⟨[], [], [sessA], []⟩

def dbC6 : SqlDb := ⟨[], [], [sessRowA], []⟩

def fbC6 : FbState := ⟨dbC6, emptyMem⟩

def dataC8 : UserObj := ⟨"", some "A", some "a@x.com", none, none⟩

def uinpC8 : UserInput := ⟨some "A", some "a@x.com", none, none⟩

def userU1 : UserObj := ⟨"u1", some "A", some "a@x.com", none, none⟩

def accA : AccountObj :=
  ⟨"a1", "u1", "pA", "X", none, none, none, none, none, none, none, none⟩

def stC5 : MemState := ⟨[userU1], [accA], [sessA], []⟩

def userU2 : UserObj := ⟨"u2", some "B", some "b@x.com", none, none⟩

def accB : AccountObj :=
  ⟨"a2", "u2", "pB", "X", none, none, none, none, none, none, none, none⟩

def stC7 : MemState := ⟨[userU1, userU2], [accA, accB], [], []⟩

def uRow1 : SqlUserRow := ⟨"u1", some "A", some "a@x.com", none, none⟩

def aRowA : SqlAccountRow :=
  ⟨"a1", "u1", "pA", none, "X", none, none, none, none, none, none, none⟩

def aRowB : SqlAccountRow :=
  ⟨"a2", "u2", "pB", none, "X", none, none, none, none, none, none, none⟩

def dbC7 : SqlDb := ⟨[uRow1], [aRowA, aRowB], [], []⟩

def accNew : AccountObj :=
  ⟨"", "u1", "pC", "Y", none, none, none, none, none, none, none, none⟩

def fbC9 : FbState := ⟨dbC7, emptyMem⟩

/-! Generic list lemmas used by several claims below. -/

theorem optOrElseNone (x : Option α) : x.orElse (fun _ => none) = x := by
  cases x <;> rfl

theorem find?_eq_filter_head? (p : α → Bool) (l : List α) :
    l.find? p = (l.filter p).head? := by
  induction l with
  | nil => rfl
  | cons a t ih =>
      cases h : p a
      · rw [List.find?_cons_of_neg t (by simp [h]),
          List.filter_cons_of_neg (by simp [h])]
        exact ih
      · rw [List.find?_cons_of_pos t h, List.filter_cons_of_pos h]
        rfl

theorem filter_eraseP (p : α → Bool) (l : List α) :
    (l.eraseP p).filter p = (l.filter p).drop 1 := by
  induction l with
  | nil => rfl
  | cons a t ih =>
      cases h : p a
      · rw [List.eraseP_cons_of_neg (by simp [h]),
          List.filter_cons_of_neg (by simp [h]),
          List.filter_cons_of_neg (by simp [h])]
        exact ih
      · rw [List.eraseP_cons_of_pos h, List.filter_cons_of_pos h]
        rfl

theorem any_of_filter_ne_nil (p : α → Bool) (l : List α)
    (h : l.filter p ≠ []) : l.any p = true := by
  induction l with
  | nil => simp at h
  | cons a t ih =>
      cases hpa : p a
      · rw [List.filter_cons] at h
        simp only [hpa, cond_false] at h
        simp [List.any_cons, hpa, ih h]
      · simp [List.any_cons, hpa]

theorem jsFindSplice_found (p : α → Bool) (l : List α) (h : l.any p = true) :
    jsFindSplice l p = l.eraseP p := by
  simp [jsFindSplice, h]

theorem jsFindSplice_miss (p : α → Bool) (l : List α) (h : l.any p = false) :
    jsFindSplice l p = l.dropLast := by
  simp [jsFindSplice, h]

theorem filter_not_self (q : α → Bool) (l : List α) :
    (l.filter (fun a => !(q a))).filter q = [] := by
  induction l with
  | nil => rfl
  | cons a t ih => cases h : q a <;> simp [List.filter_cons, h, ih]

theorem mutateFirst_mem (p : α → Bool) (f : α → α) (l : List α) (s : α)
    (h : l.find? p = some s) : f s ∈ MemoryAdapter.mutateFirst p f l := by
  induction l with
  | nil => simp [List.find?] at h
  | cons a t ih =>
      cases hpa : p a
      · rw [List.find?_cons, hpa] at h
        simp [MemoryAdapter.mutateFirst, hpa, ih h]
      · rw [List.find?_cons, hpa] at h
        injection h with h
        subst h
        simp [MemoryAdapter.mutateFirst, hpa]

/-- The filtered head of a non-empty filter satisfies the predicate. -/
theorem filter_head?_spec (q : α → Bool) (l : List α) (h : l.filter q ≠ []) :
    ∃ r, (l.filter q).head? = some r ∧ q r = true := by
  cases hx : l.filter q with
  | nil => exact absurd hx h
  | cons x xs =>
      refine ⟨x, rfl, ?_⟩
      have : x ∈ l.filter q := by rw [hx]; exact List.mem_cons_self x xs
      exact List.of_mem_filter this

/-! Claim C1. -/

/-- C1: a stored verification token is consumed exactly once.  In the
in-memory adapter (where the store holds exactly one token with the
given pair) and in both SQLite adapters (where the store holds at least
one matching row), a first useVerificationToken on the (identifier,
token) pair returns the token and a second call on the same pair
returns the not-found result. -/
theorem useVerificationToken_single_use
    (st : MemState) (db : SqlDb) (fst : FbState) (id tok : String) (vt : VTokObj)
    (hmem : st.verificationTokens.filter
      (fun t => t.identifier == some id && t.token == some tok) = [vt])
    (hsql : db.tokens.filter
      (fun r => r.verification_token_id == id && r.token == tok) ≠ [])
    (hfb : fst.sql.tokens.filter
      (fun r => r.verification_token_id == id && r.token == tok) ≠ []) :
    ((MemoryAdapter.useVerificationToken st id tok).2 = some vt ∧
     (MemoryAdapter.useVerificationToken
        (MemoryAdapter.useVerificationToken st id tok).1 id tok).2 = none) ∧
    ((∃ r, (SQLiteAdapter.useVerificationToken db id tok).2 = some r ∧
        r.verification_token_id = id ∧ r.token = tok) ∧
     (SQLiteAdapter.useVerificationToken
        (SQLiteAdapter.useVerificationToken db id tok).1 id tok).2 = none) ∧
    ((∃ r, (FallbackSQLiteAdapter.useVerificationToken fst id tok).2 = some r ∧
        r.verification_token_id = id ∧ r.token = tok) ∧
     (FallbackSQLiteAdapter.useVerificationToken
        (FallbackSQLiteAdapter.useVerificationToken fst id tok).1 id tok).2 = none) := by
  have hany := any_of_filter_ne_nil _ _ (by rw [hmem]; simp)
  refine ⟨⟨?_, ?_⟩, ?_, ?_⟩
  · simp only [MemoryAdapter.useVerificationToken]
    rw [find?_eq_filter_head?, hmem]
    rfl
  · simp only [MemoryAdapter.useVerificationToken]
    rw [find?_eq_filter_head?, jsFindSplice_found _ _ hany, filter_eraseP, hmem]
    rfl
  · obtain ⟨r, hr, hq⟩ := filter_head?_spec _ _ hsql
    rw [Bool.and_eq_true, beq_iff_eq, beq_iff_eq] at hq
    constructor
    · exact ⟨r, by simpa [SQLiteAdapter.useVerificationToken] using hr, hq.1, hq.2⟩
    · simp only [SQLiteAdapter.useVerificationToken]
      rw [filter_not_self]
      rfl
  · obtain ⟨r, hr, hq⟩ := filter_head?_spec _ _ hfb
    rw [Bool.and_eq_true, beq_iff_eq, beq_iff_eq] at hq
    constructor
    · refine ⟨r, ?_, hq.1, hq.2⟩
      simp only [FallbackSQLiteAdapter.useVerificationToken]
      rw [optOrElseNone]
      exact hr
    · simp only [FallbackSQLiteAdapter.useVerificationToken]
      rw [optOrElseNone, filter_not_self]
      rfl

theorem useVerificationToken_single_use_witness :
    (stC1.verificationTokens.filter
      (fun t => t.identifier == some "i" && t.token == some "t") = [vt0]) ∧
    (dbC1.tokens.filter
      (fun r => r.verification_token_id == "i" && r.token == "t") ≠ []) ∧
    (fbC1.sql.tokens.filter
      (fun r => r.verification_token_id == "i" && r.token == "t") ≠ []) ∧
    (((MemoryAdapter.useVerificationToken stC1 "i" "t").2 = some vt0 ∧
      (MemoryAdapter.useVerificationToken
        (MemoryAdapter.useVerificationToken stC1 "i" "t").1 "i" "t").2 = none) ∧
     ((∃ r, (SQLiteAdapter.useVerificationToken dbC1 "i" "t").2 = some r ∧
        r.verification_token_id = "i" ∧ r.token = "t") ∧
      (SQLiteAdapter.useVerificationToken
        (SQLiteAdapter.useVerificationToken dbC1 "i" "t").1 "i" "t").2 = none) ∧
     ((∃ r, (FallbackSQLiteAdapter.useVerificationToken fbC1 "i" "t").2 = some r ∧
        r.verification_token_id = "i" ∧ r.token = "t") ∧
      (FallbackSQLiteAdapter.useVerificationToken
        (FallbackSQLiteAdapter.useVerificationToken fbC1 "i" "t").1 "i" "t").2 = none)) :=
  ⟨by decide, by decide, by decide,
   useVerificationToken_single_use stC1 dbC1 fbC1 "i" "t" vt0
     (by decide) (by decide) (by decide)⟩

/-! Claim C2. -/

/-- C2 (code bug): in the in-memory adapter a deletion on a key with no
matching record does return the not-found sentinel, but it does not
leave the stored collections unchanged: findIndex yields -1 and
splice(-1, 1) removes the last element of the collection.  Concretely,
with a single stored session, deleteSession on an absent token empties
the sessions collection. -/
theorem deleteSession_miss_removes_last :
    (MemoryAdapter.deleteSession ⟨[], [], [sessA], []⟩ "other").1.sessions = [] ∧
    (MemoryAdapter.deleteSession ⟨[], [], [sessA], []⟩ "other").2 = none ∧
    sessA.sessionToken ≠ "other" := by decide

/-! Claim C3. -/

theorem createSessionAt_falsy (db : SqlDb) (n : String) (inp : SessionInput)
    (e : Int)
    (h : jsFalsyStr inp.userId = true ∨ jsFalsyStr inp.sessionToken = true) :
    SQLiteAdapter.createSessionAt db n inp e = (db, .thrown) := by
  obtain ⟨stok, suid, sexp⟩ := inp
  cases suid with
  | none => cases stok <;> rfl
  | some u =>
      cases stok with
      | none => rfl
      | some t =>
          simp only [jsFalsyStr] at h
          rcases h with h | h <;>
            simp [SQLiteAdapter.createSessionAt, h]

theorem fbCreateSessionAt_falsy (st : FbState) (n : String) (inp : SessionInput)
    (e : Int)
    (h : jsFalsyStr inp.userId = true ∨ jsFalsyStr inp.sessionToken = true) :
    FallbackSQLiteAdapter.createSessionAt st n inp e = (st, .thrown) := by
  obtain ⟨stok, suid, sexp⟩ := inp
  cases suid with
  | none => cases stok <;> rfl
  | some u =>
      cases stok with
      | none => rfl
      | some t =>
          simp only [jsFalsyStr] at h
          rcases h with h | h <;>
            simp [FallbackSQLiteAdapter.createSessionAt, h]

/-- C3: in both SQLite adapters, createSession on input lacking a
required field (an expires that is neither a Date nor a number, or a
falsy userId or sessionToken) and createVerificationToken on input
lacking any of its fields throw immediately and leave the stored state
unchanged: the result is the pair of the untouched database and a
thrown outcome. -/
theorem create_rejects_missing_fields
    (db db2 : SqlDb) (fst fst2 : FbState) (nid : String)
    (sInp : SessionInput) (vInp : VTokObj)
    (hs : sInp.expires = .other ∨ jsFalsyStr sInp.userId = true ∨
      jsFalsyStr sInp.sessionToken = true)
    (hv : vInp.identifier = none ∨ vInp.expires = none ∨ vInp.token = none) :
    SQLiteAdapter.createSession db nid sInp = (db, .thrown) ∧
    FallbackSQLiteAdapter.createSession fst nid sInp = (fst, .thrown) ∧
    SQLiteAdapter.createVerificationToken db2 vInp = (db2, .thrown) ∧
    FallbackSQLiteAdapter.createVerificationToken fst2 vInp = (fst2, .thrown) := by
  refine ⟨?_, ?_, ?_, ?_⟩
  · rcases hs with he | hfal | hfal
    · obtain ⟨stok, suid, sexp⟩ := sInp
      simp only at he
      subst he
      rfl
    all_goals
      cases hexp : sInp.expires <;>
        simp_all [SQLiteAdapter.createSession, createSessionAt_falsy]
  · rcases hs with he | hfal | hfal
    · obtain ⟨stok, suid, sexp⟩ := sInp
      simp only at he
      subst he
      rfl
    all_goals
      cases hexp : sInp.expires <;>
        simp_all [FallbackSQLiteAdapter.createSession, fbCreateSessionAt_falsy]
  · obtain ⟨vi, ve, vk⟩ := vInp
    rcases hv with h | h | h <;> simp only at h <;> subst h
    · cases ve <;> cases vk <;> rfl
    · cases vi <;> cases vk <;> rfl
    · cases vi <;> cases ve <;> rfl
  · obtain ⟨vi, ve, vk⟩ := vInp
    rcases hv with h | h | h <;> simp only at h <;> subst h
    · cases ve <;> cases vk <;> rfl
    · cases vi <;> cases vk <;> rfl
    · cases vi <;> cases ve <;> rfl

theorem create_rejects_missing_fields_witness :
    ((⟨some "tok", some "u1", .other⟩ : SessionInput).expires = .other ∨
      jsFalsyStr (⟨some "tok", some "u1", .other⟩ : SessionInput).userId = true ∨
      jsFalsyStr (⟨some "tok", some "u1", .other⟩ : SessionInput).sessionToken = true) ∧
    ((⟨some "i", none, some "t"⟩ : VTokObj).identifier = none ∨
      (⟨some "i", none, some "t"⟩ : VTokObj).expires = none ∨
      (⟨some "i", none, some "t"⟩ : VTokObj).token = none) ∧
    (SQLiteAdapter.createSession dbC1 "s9" ⟨some "tok", some "u1", .other⟩ =
      (dbC1, .thrown) ∧
     FallbackSQLiteAdapter.createSession fbC1 "s9" ⟨some "tok", some "u1", .other⟩ =
      (fbC1, .thrown) ∧
     SQLiteAdapter.createVerificationToken dbC1 ⟨some "i", none, some "t"⟩ =
      (dbC1, .thrown) ∧
     FallbackSQLiteAdapter.createVerificationToken fbC1 ⟨some "i", none, some "t"⟩ =
      (fbC1, .thrown)) :=
  ⟨Or.inl rfl, Or.inr (Or.inl rfl),
   create_rejects_missing_fields dbC1 dbC1 fbC1 fbC1 "s9"
     ⟨some "tok", some "u1", .other⟩ ⟨some "i", none, some "t"⟩
     (Or.inl rfl) (Or.inr (Or.inl rfl))⟩

/-! Claim C4. -/

/-- C4 (code bug): createSession converts a Date to epoch seconds on
write, and the epoch seconds read back by RETURNING are wrapped in
new Date(seconds), producing a Date whose milliseconds value equals the
stored seconds value.  With expires the instant 2000000 ms, both SQLite
adapters persist 2000 (epoch seconds) but return a session whose
expires Date is the instant 2000 ms, 1000 times too early: the value
returned by createSession does not denote the written instant. -/
theorem createSession_wrong_instant :
    SQLiteAdapter.createSession emptySql "s1"
      ⟨some "tokA", some "u1", .date ⟨2000000⟩⟩ =
      (⟨[], [], [⟨"s1", "u1", 2000, "tokA"⟩], []⟩,
       .ok ⟨some "s1", "tokA", "u1", ⟨2000⟩⟩) ∧
    FallbackSQLiteAdapter.createSession ⟨emptySql, emptyMem⟩ "s1"
      ⟨some "tokA", some "u1", .date ⟨2000000⟩⟩ =
      (⟨⟨[], [], [⟨"s1", "u1", 2000, "tokA"⟩], []⟩, emptyMem⟩,
       .ok ⟨none, "tokA", "u1", ⟨2000⟩⟩) ∧
    (2000 : Int) * 1000 = 2000000 ∧ (2000 : Int) ≠ 2000000 := by decide

/-! Claim C10. -/

/-- C10: in both SQLite adapters, updateSession called with a non-empty
sessionToken for which no session row exists throws (at binding an
absent merged field, or at the rv.expires assignment on the absent
RETURNING row) rather than returning a null result, and leaves the
database unchanged. -/
theorem updateSession_absent_session_throws
    (db : SqlDb) (fst : FbState) (tok : String) (p pf : SessionPatch)
    (htok : tok ≠ "")
    (hp : p.sessionToken = some tok) (hpf : pf.sessionToken = some tok)
    (hnone : ∀ s ∈ db.sessions, s.session_token ≠ tok)
    (hfnone : ∀ s ∈ fst.sql.sessions, s.session_token ≠ tok) :
    SQLiteAdapter.updateSession db p = (db, .thrown) ∧
    FallbackSQLiteAdapter.updateSession fst pf = (fst, .thrown) := by
  have hempty : tok.isEmpty = false := by
    cases htok' : tok.isEmpty
    · rfl
    · exact absurd (String.isEmpty_iff tok |>.mp htok') htok
  have hfind : db.sessions.find? (fun s => s.session_token == tok) = none :=
    List.find?_eq_none.mpr (fun x hx => by simp [hnone x hx])
  have hffind : fst.sql.sessions.find? (fun s => s.session_token == tok) = none :=
    List.find?_eq_none.mpr (fun x hx => by simp [hfnone x hx])
  obtain ⟨ptok, puid, pexp⟩ := p
  obtain ⟨pftok, pfuid, pfexp⟩ := pf
  simp only at hp hpf
  subst hp
  subst hpf
  constructor
  · simp only [SQLiteAdapter.updateSession, hempty, Bool.false_eq_true, if_false,
      hfind, Option.map_none', optOrElseNone]
    cases puid <;> cases pexp <;> rfl
  · simp only [FallbackSQLiteAdapter.updateSession, hempty, Bool.false_eq_true,
      if_false, hffind, Option.map_none', optOrElseNone]
    cases pfuid <;> cases pfexp <;> rfl

theorem updateSession_absent_session_throws_witness :
    ("tokZ" ≠ "") ∧
    ((⟨some "tokZ", some "u1", some 7⟩ : SessionPatch).sessionToken = some "tokZ") ∧
    (∀ s ∈ dbC1.sessions, s.session_token ≠ "tokZ") ∧
    (SQLiteAdapter.updateSession dbC1 ⟨some "tokZ", some "u1", some 7⟩ =
      (dbC1, .thrown) ∧
     FallbackSQLiteAdapter.updateSession fbC1 ⟨some "tokZ", some "u1", some 7⟩ =
      (fbC1, .thrown)) :=
  ⟨by decide, rfl, by decide,
   updateSession_absent_session_throws dbC1 fbC1 "tokZ"
     ⟨some "tokZ", some "u1", some 7⟩ ⟨some "tokZ", some "u1", some 7⟩
     (by decide) rfl rfl (by decide) (by decide)⟩

/-! Claim C6. -/

theorem mem_updated_sessions (l : List SqlSessionRow) (tok uid : String)
    (e : Int) (x : SqlSessionRow)
    (hx : x ∈ l.map (fun s => if s.session_token == tok
        then { s with user_id := uid, expires_at := e } else s))
    (hq : x.session_token = tok) : x.expires_at = e := by
  rcases List.mem_map.mp hx with ⟨s, hs, rfl⟩
  by_cases h : s.session_token = tok
  · rw [if_pos (by simp [h])]
  · rw [if_neg (by simp [h])] at hq
    exact absurd hq h

theorem mem_updated_sessions_self (l : List SqlSessionRow) (tok uid : String)
    (e : Int) (row : SqlSessionRow) (hrow : row ∈ l)
    (htok : row.session_token = tok) :
    ({ row with user_id := uid, expires_at := e } : SqlSessionRow) ∈
      l.map (fun s => if s.session_token == tok
        then { s with user_id := uid, expires_at := e } else s) := by
  have hm := List.mem_map_of_mem (fun s => if s.session_token == tok
      then ({ s with user_id := uid, expires_at := e } : SqlSessionRow) else s) hrow
  simpa [htok] using hm

/-- C6: updating a stored session with a new expiry keeps the session
token and persists the new expiry, in all three adapters.  In the
in-memory adapter the merged session (returned and stored in place)
carries the original token and the new expires value; in the SQLite
adapters the returned session carries the original token and the new
epoch value (wrapped by the code in new Date(n)), and every persisted
row with that token carries the new epoch value. -/
theorem updateSession_new_expiry_keeps_token
    (st : MemState) (db : SqlDb) (fst : FbState) (tok : String)
    (e : ExpiresValue) (epochE : Int) (pUser pUserL pUserF : Option String)
    (s : SessionObj) (row frow : SqlSessionRow)
    (htok : tok ≠ "")
    (hmem : st.sessions.find? (fun x => x.sessionToken == tok) = some s)
    (hsql : db.sessions.find? (fun x => x.session_token == tok) = some row)
    (hfb : fst.sql.sessions.find? (fun x => x.session_token == tok) = some frow) :
    ((MemoryAdapter.updateSession st ⟨tok, pUser, some e⟩).2.sessionToken = tok ∧
     (MemoryAdapter.updateSession st ⟨tok, pUser, some e⟩).2.expires = some e ∧
     (MemoryAdapter.updateSession st ⟨tok, pUser, some e⟩).2 ∈
       (MemoryAdapter.updateSession st ⟨tok, pUser, some e⟩).1.sessions) ∧
    ((SQLiteAdapter.updateSession db ⟨some tok, pUserL, some epochE⟩).2 =
       .ok (some ⟨some row.session_id, tok, pUserL.getD row.user_id, ⟨epochE⟩⟩) ∧
     (∀ x ∈ (SQLiteAdapter.updateSession db
        ⟨some tok, pUserL, some epochE⟩).1.sessions,
        x.session_token = tok → x.expires_at = epochE) ∧
     (∃ x ∈ (SQLiteAdapter.updateSession db
        ⟨some tok, pUserL, some epochE⟩).1.sessions, x.session_token = tok)) ∧
    ((FallbackSQLiteAdapter.updateSession fst ⟨some tok, pUserF, some epochE⟩).2 =
       .ok (some ⟨some frow.session_id, tok, pUserF.getD frow.user_id, ⟨epochE⟩⟩) ∧
     (∀ x ∈ (FallbackSQLiteAdapter.updateSession fst
        ⟨some tok, pUserF, some epochE⟩).1.sql.sessions,
        x.session_token = tok → x.expires_at = epochE) ∧
     (∃ x ∈ (FallbackSQLiteAdapter.updateSession fst
        ⟨some tok, pUserF, some epochE⟩).1.sql.sessions, x.session_token = tok)) := by
  have hempty : tok.isEmpty = false := by
    cases htok' : tok.isEmpty
    · rfl
    · exact absurd (String.isEmpty_iff tok |>.mp htok') htok
  have hrowMem := List.mem_of_find?_eq_some hsql
  have hrowTok : row.session_token = tok := by simpa using List.find?_some hsql
  have hfrowMem := List.mem_of_find?_eq_some hfb
  have hfrowTok : frow.session_token = tok := by simpa using List.find?_some hfb
  refine ⟨⟨?_, ?_, ?_⟩, ?_, ?_⟩
  · simp only [MemoryAdapter.updateSession, hmem]
    rfl
  · simp only [MemoryAdapter.updateSession, hmem]
    rfl
  · simp only [MemoryAdapter.updateSession, hmem]
    exact mutateFirst_mem _ _ _ _ hmem
  · have hupd : SQLiteAdapter.updateSession db ⟨some tok, pUserL, some epochE⟩ =
        ({ db with sessions := db.sessions.map (fun s =>
            if s.session_token == tok
            then { s with user_id := pUserL.getD row.user_id, expires_at := epochE }
            else s) },
         .ok (some ⟨some row.session_id, tok, pUserL.getD row.user_id, ⟨epochE⟩⟩)) := by
      cases pUserL <;>
        simp only [SQLiteAdapter.updateSession, hempty, Bool.false_eq_true,
          if_false, hsql, Option.map_some'] <;> rfl
    rw [hupd]
    refine ⟨rfl, ?_, ?_⟩
    · intro x hx hq
      exact mem_updated_sessions _ _ _ _ _ hx hq
    · exact ⟨{ row with user_id := pUserL.getD row.user_id, expires_at := epochE },
        mem_updated_sessions_self _ _ _ _ _ hrowMem hrowTok, hrowTok⟩
  · have hupd : FallbackSQLiteAdapter.updateSession fst
        ⟨some tok, pUserF, some epochE⟩ =
        ({ fst with sql := { fst.sql with sessions := fst.sql.sessions.map (fun s =>
            if s.session_token == tok
            then { s with user_id := pUserF.getD frow.user_id, expires_at := epochE }
            else s) } },
         .ok (some ⟨some frow.session_id, tok, pUserF.getD frow.user_id, ⟨epochE⟩⟩)) := by
      cases pUserF <;>
        simp only [FallbackSQLiteAdapter.updateSession, hempty, Bool.false_eq_true,
          if_false, hfb, Option.map_some'] <;> rfl
    rw [hupd]
    refine ⟨rfl, ?_, ?_⟩
    · intro x hx hq
      exact mem_updated_sessions _ _ _ _ _ hx hq
    · exact ⟨{ frow with user_id := pUserF.getD frow.user_id, expires_at := epochE },
        mem_updated_sessions_self _ _ _ _ _ hfrowMem hfrowTok, hfrowTok⟩

theorem updateSession_new_expiry_keeps_token_witness :
    ("tokA" ≠ "") ∧
    (stC6.sessions.find? (fun x => x.sessionToken == "tokA") = some sessA) ∧
    (dbC6.sessions.find? (fun x => x.session_token == "tokA") = some sessRowA) ∧
    (fbC6.sql.sessions.find? (fun x => x.session_token == "tokA") = some sessRowA) ∧
    (((MemoryAdapter.updateSession stC6 ⟨"tokA", none, some (.num 9)⟩).2.sessionToken = "tokA" ∧
      (MemoryAdapter.updateSession stC6 ⟨"tokA", none, some (.num 9)⟩).2.expires = some (.num 9) ∧
      (MemoryAdapter.updateSession stC6 ⟨"tokA", none, some (.num 9)⟩).2 ∈
        (MemoryAdapter.updateSession stC6 ⟨"tokA", none, some (.num 9)⟩).1.sessions) ∧
     ((SQLiteAdapter.updateSession dbC6 ⟨some "tokA", none, some 9⟩).2 =
        .ok (some ⟨some sessRowA.session_id, "tokA",
          (none : Option String).getD sessRowA.user_id, ⟨9⟩⟩) ∧
      (∀ x ∈ (SQLiteAdapter.updateSession dbC6
        ⟨some "tokA", none, some 9⟩).1.sessions,
        x.session_token = "tokA" → x.expires_at = 9) ∧
      (∃ x ∈ (SQLiteAdapter.updateSession dbC6
        ⟨some "tokA", none, some 9⟩).1.sessions, x.session_token = "tokA")) ∧
     ((FallbackSQLiteAdapter.updateSession fbC6 ⟨some "tokA", none, some 9⟩).2 =
        .ok (some ⟨some sessRowA.session_id, "tokA",
          (none : Option String).getD sessRowA.user_id, ⟨9⟩⟩) ∧
      (∀ x ∈ (FallbackSQLiteAdapter.updateSession fbC6
        ⟨some "tokA", none, some 9⟩).1.sql.sessions,
        x.session_token = "tokA" → x.expires_at = 9) ∧
      (∃ x ∈ (FallbackSQLiteAdapter.updateSession fbC6
        ⟨some "tokA", none, some 9⟩).1.sql.sessions, x.session_token = "tokA"))) :=
  ⟨by decide, by decide, by decide, by decide,
   updateSession_new_expiry_keeps_token stC6 dbC6 fbC6 "tokA" (.num 9) 9
     none none none sessA sessRowA sessRowA
     (by decide) (by decide) (by decide) (by decide)⟩

/-! Claim C8. -/

/-- C8: creating a user returns a record carrying the freshly generated
id and the given email, and a subsequent getUser with that id and
getUserByEmail with that email each return the created record, in all
three adapters, given that the generated id is fresh and no stored user
already carries the email (the email-uniqueness invariant). -/
theorem createUser_roundtrip
    (st : MemState) (db : SqlDb) (fst : FbState)
    (data : UserObj) (uinp finp : UserInput) (rnd nid fnid em : String)
    (hmemFresh : ∀ x ∈ st.users, x.id ≠ "userId_" ++ rnd)
    (hmemEmail : ∀ x ∈ st.users, x.email ≠ some em)
    (hdataEmail : data.email = some em)
    (hsqlFresh : ∀ x ∈ db.users, x.user_id ≠ nid)
    (hsqlEmail : ∀ x ∈ db.users, x.email ≠ some em)
    (huEmail : uinp.email = some em)
    (hfbFresh : ∀ x ∈ fst.sql.users, x.user_id ≠ fnid)
    (hfbEmail : ∀ x ∈ fst.sql.users, x.email ≠ some em)
    (hfEmail : finp.email = some em) :
    ((MemoryAdapter.createUser st data rnd).2.id = "userId_" ++ rnd ∧
     (MemoryAdapter.createUser st data rnd).2.email = some em ∧
     MemoryAdapter.getUser (MemoryAdapter.createUser st data rnd).1
       ("userId_" ++ rnd) = some (MemoryAdapter.createUser st data rnd).2 ∧
     MemoryAdapter.getUserByEmail (MemoryAdapter.createUser st data rnd).1 em =
       some (MemoryAdapter.createUser st data rnd).2) ∧
    ((SQLiteAdapter.createUser db nid uinp).2.user_id = nid ∧
     (SQLiteAdapter.createUser db nid uinp).2.email = some em ∧
     SQLiteAdapter.getUser (SQLiteAdapter.createUser db nid uinp).1 nid =
       some (SQLiteAdapter.createUser db nid uinp).2 ∧
     SQLiteAdapter.getUserByEmail (SQLiteAdapter.createUser db nid uinp).1 em =
       some (SQLiteAdapter.createUser db nid uinp).2) ∧
    ((FallbackSQLiteAdapter.createUser fst fnid finp).2.user_id = fnid ∧
     (FallbackSQLiteAdapter.createUser fst fnid finp).2.email = some em ∧
     FallbackSQLiteAdapter.getUser
       (FallbackSQLiteAdapter.createUser fst fnid finp).1 fnid =
       some (FallbackSQLiteAdapter.createUser fst fnid finp).2 ∧
     FallbackSQLiteAdapter.getUserByEmail
       (FallbackSQLiteAdapter.createUser fst fnid finp).1 em =
       some (FallbackSQLiteAdapter.createUser fst fnid finp).2) := by
  refine ⟨⟨rfl, hdataEmail, ?_, ?_⟩, ⟨rfl, huEmail, ?_, ?_⟩,
    ⟨rfl, hfEmail, ?_, ?_⟩⟩
  · simp only [MemoryAdapter.getUser, MemoryAdapter.createUser]
    rw [List.find?_append,
      List.find?_eq_none.mpr (fun x hx => by simp [hmemFresh x hx])]
    simp
  · simp only [MemoryAdapter.getUserByEmail, MemoryAdapter.createUser]
    rw [List.find?_append,
      List.find?_eq_none.mpr (fun x hx => by simp [hmemEmail x hx])]
    simp [hdataEmail]
  · simp only [SQLiteAdapter.getUser, SQLiteAdapter.createUser]
    rw [List.find?_append,
      List.find?_eq_none.mpr (fun x hx => by simp [hsqlFresh x hx])]
    simp
  · simp only [SQLiteAdapter.getUserByEmail, SQLiteAdapter.createUser]
    rw [List.find?_append,
      List.find?_eq_none.mpr (fun x hx => by simp [hsqlEmail x hx])]
    simp [huEmail]
  · simp only [FallbackSQLiteAdapter.getUser, FallbackSQLiteAdapter.createUser]
    rw [List.find?_append,
      List.find?_eq_none.mpr (fun x hx => by simp [hfbFresh x hx])]
    simp [optOrElseNone]
  · simp only [FallbackSQLiteAdapter.getUserByEmail,
      FallbackSQLiteAdapter.createUser]
    rw [List.find?_append,
      List.find?_eq_none.mpr (fun x hx => by simp [hfbEmail x hx])]
    simp [optOrElseNone, hfEmail]

theorem createUser_roundtrip_witness :
    (∀ x ∈ emptyMem.users, x.id ≠ "userId_" ++ "r1") ∧
    (∀ x ∈ emptyMem.users, x.email ≠ some "a@x.com") ∧
    (dataC8.email = some "a@x.com") ∧
    (∀ x ∈ emptySql.users, x.user_id ≠ "u1") ∧
    (∀ x ∈ emptySql.users, x.email ≠ some "a@x.com") ∧
    (uinpC8.email = some "a@x.com") ∧
    (((MemoryAdapter.createUser emptyMem dataC8 "r1").2.id = "userId_" ++ "r1" ∧
      (MemoryAdapter.createUser emptyMem dataC8 "r1").2.email = some "a@x.com" ∧
      MemoryAdapter.getUser (MemoryAdapter.createUser emptyMem dataC8 "r1").1
        ("userId_" ++ "r1") = some (MemoryAdapter.createUser emptyMem dataC8 "r1").2 ∧
      MemoryAdapter.getUserByEmail
        (MemoryAdapter.createUser emptyMem dataC8 "r1").1 "a@x.com" =
        some (MemoryAdapter.createUser emptyMem dataC8 "r1").2) ∧
     ((SQLiteAdapter.createUser emptySql "u1" uinpC8).2.user_id = "u1" ∧
      (SQLiteAdapter.createUser emptySql "u1" uinpC8).2.email = some "a@x.com" ∧
      SQLiteAdapter.getUser (SQLiteAdapter.createUser emptySql "u1" uinpC8).1 "u1" =
        some (SQLiteAdapter.createUser emptySql "u1" uinpC8).2 ∧
      SQLiteAdapter.getUserByEmail
        (SQLiteAdapter.createUser emptySql "u1" uinpC8).1 "a@x.com" =
        some (SQLiteAdapter.createUser emptySql "u1" uinpC8).2) ∧
     ((FallbackSQLiteAdapter.createUser ⟨emptySql, emptyMem⟩ "u2" uinpC8).2.user_id = "u2" ∧
      (FallbackSQLiteAdapter.createUser ⟨emptySql, emptyMem⟩ "u2" uinpC8).2.email =
        some "a@x.com" ∧
      FallbackSQLiteAdapter.getUser
        (FallbackSQLiteAdapter.createUser ⟨emptySql, emptyMem⟩ "u2" uinpC8).1 "u2" =
        some (FallbackSQLiteAdapter.createUser ⟨emptySql, emptyMem⟩ "u2" uinpC8).2 ∧
      FallbackSQLiteAdapter.getUserByEmail
        (FallbackSQLiteAdapter.createUser ⟨emptySql, emptyMem⟩ "u2" uinpC8).1 "a@x.com" =
        some (FallbackSQLiteAdapter.createUser ⟨emptySql, emptyMem⟩ "u2" uinpC8).2)) :=
  ⟨by decide, by decide, by decide, by decide, by decide, by decide,
   createUser_roundtrip emptyMem emptySql ⟨emptySql, emptyMem⟩ dataC8 uinpC8 uinpC8
     "r1" "u1" "u2" "a@x.com" (by decide) (by decide) (by decide) (by decide)
     (by decide) (by decide) (by decide) (by decide) (by decide)⟩

/-! Claim C5. -/

theorem flatMap_nil_of_inner (l : List α) (f : α → List β)
    (h : ∀ x ∈ l, f x = []) : l.flatMap f = [] := by
  induction l with
  | nil => rfl
  | cons a t ih =>
      rw [List.flatMap_cons, h a (List.mem_cons_self a t), List.nil_append]
      exact ih (fun x hx => h x (List.mem_cons_of_mem a hx))

/-- C5 (counterexample): in the in-memory adapter deleteUser removes
only the user record.  With a user owning one session and one linked
account, after deleteUser the session and the account are still present
in the stored collections, so the claim that no owned session or
account remains in the store fails for the in-memory adapter. -/
theorem deleteUser_no_cascade_cx :
    (MemoryAdapter.deleteUser ⟨[userU1], [accA], [sessA], []⟩ "u1").1.users = [] ∧
    (MemoryAdapter.deleteUser ⟨[userU1], [accA], [sessA], []⟩ "u1").1.sessions =
      [sessA] ∧
    sessA.userId = some "u1" ∧
    (MemoryAdapter.deleteUser ⟨[userU1], [accA], [sessA], []⟩ "u1").1.accounts =
      [accA] ∧
    accA.userId = "u1" := by decide

/-- C5 (amended): in the SQLite adapters deleteUser removes every
session row and account row owned by the user, and subsequent
getSessionAndUser / getUserByAccount lookups for them return not-found;
in the in-memory adapter deleteUser leaves the sessions and accounts
collections untouched (owned records remain stored), but subsequent
getSessionAndUser and getUserByAccount lookups for the deleted user
still return not-found, because the owner lookup fails. -/
theorem deleteUser_cascade_amended
    (db : SqlDb) (fst : FbState) (st : MemState) (uid : String) (u : UserObj)
    (hu : st.users.filter (fun x => x.id == uid) = [u]) :
    ((SQLiteAdapter.deleteUser db uid).sessions.filter
        (fun s => s.user_id == uid) = [] ∧
     (SQLiteAdapter.deleteUser db uid).accounts.filter
        (fun a => a.user_id == uid) = []) ∧
    ((FallbackSQLiteAdapter.deleteUser fst uid).sql.sessions.filter
        (fun s => s.user_id == uid) = [] ∧
     (FallbackSQLiteAdapter.deleteUser fst uid).sql.accounts.filter
        (fun a => a.user_id == uid) = []) ∧
    (∀ tok : String,
      (∀ s ∈ db.sessions, s.session_token = tok → s.user_id = uid) →
      SQLiteAdapter.getSessionAndUser (SQLiteAdapter.deleteUser db uid)
        (some tok) = none) ∧
    (∀ pid prov : String,
      (∀ a ∈ db.accounts, a.provider_user_id = pid → a.provider = prov →
        a.user_id = uid) →
      SQLiteAdapter.getUserByAccount (SQLiteAdapter.deleteUser db uid)
        pid prov = none) ∧
    (∀ tok : String,
      (∀ s ∈ fst.sql.sessions, s.session_token = tok → s.user_id = uid) →
      FallbackSQLiteAdapter.getSessionAndUser
        (FallbackSQLiteAdapter.deleteUser fst uid) (some tok) = none) ∧
    (∀ k : ProviderKey,
      (∀ a ∈ fst.sql.accounts, a.provider_user_id = k.providerAccountId →
        a.provider = k.provider → a.user_id = uid) →
      FallbackSQLiteAdapter.getUserByAccount
        (FallbackSQLiteAdapter.deleteUser fst uid) k = none) ∧
    ((MemoryAdapter.deleteUser st uid).1.sessions = st.sessions ∧
     (MemoryAdapter.deleteUser st uid).1.accounts = st.accounts) ∧
    (∀ tok s, st.sessions.find? (fun x => x.sessionToken == tok) = some s →
      s.userId = some uid →
      MemoryAdapter.getSessionAndUser (MemoryAdapter.deleteUser st uid).1 tok =
        none) ∧
    (∀ k a, st.accounts.find? (fun x =>
        x.providerAccountId == ProviderKey.providerAccountId k) = some a →
      a.userId = uid →
      MemoryAdapter.getUserByAccount (MemoryAdapter.deleteUser st uid).1 k =
        none) := by
  have husers : (jsFindSplice st.users (fun x => x.id == uid)).find?
      (fun x => x.id == uid) = none := by
    have hany : st.users.any (fun x => x.id == uid) = true :=
      any_of_filter_ne_nil _ _ (by rw [hu]; simp)
    rw [jsFindSplice_found _ _ hany, find?_eq_filter_head?, filter_eraseP, hu]
    rfl
  refine ⟨⟨?_, ?_⟩, ⟨?_, ?_⟩, ?_, ?_, ?_, ?_, ⟨rfl, rfl⟩, ?_, ?_⟩
  · simp only [SQLiteAdapter.deleteUser]
    exact filter_not_self _ _
  · simp only [SQLiteAdapter.deleteUser]
    exact filter_not_self _ _
  · simp only [FallbackSQLiteAdapter.deleteUser]
    exact filter_not_self _ _
  · simp only [FallbackSQLiteAdapter.deleteUser]
    exact filter_not_self _ _
  · intro tok hS
    have hnone : List.find? (fun s => s.session_token == tok)
        (db.sessions.filter (fun r => !(r.user_id == uid))) = none := by
      apply List.find?_eq_none.mpr
      intro x hx hxe
      have h1 := List.mem_filter.mp hx
      have h2 : x.user_id = uid := hS x h1.1 (by simpa using hxe)
      simp [h2] at h1
    simp only [SQLiteAdapter.getSessionAndUser, SQLiteAdapter.deleteUser]
    cases hie : tok.isEmpty
    · simp only [Bool.false_eq_true, if_false, hnone]
    · simp
  · intro pid prov hA
    have hinner : ∀ u' ∈ db.users.filter (fun r => !(r.user_id == uid)),
        ((db.accounts.filter (fun r => !(r.user_id == uid))).filter (fun a =>
          u'.user_id == a.user_id && a.provider_user_id == pid &&
            a.provider == prov)).map (fun _ => u') = [] := by
      intro u' hu'
      have hfil : (db.accounts.filter (fun r => !(r.user_id == uid))).filter
          (fun a => u'.user_id == a.user_id && a.provider_user_id == pid &&
            a.provider == prov) = [] := by
        apply List.filter_eq_nil_iff.mpr
        intro a ha hpa
        have h1 := List.mem_filter.mp ha
        rw [Bool.and_eq_true, Bool.and_eq_true] at hpa
        have h2 : a.user_id = uid :=
          hA a h1.1 (by simpa using hpa.1.2) (by simpa using hpa.2)
        simp [h2] at h1
      rw [hfil]
      rfl
    simp only [SQLiteAdapter.getUserByAccount, SQLiteAdapter.deleteUser]
    rw [flatMap_nil_of_inner _ _ hinner]
    rfl
  · intro tok hS
    have hnone : List.find? (fun s => s.session_token == tok)
        (fst.sql.sessions.filter (fun r => !(r.user_id == uid))) = none := by
      apply List.find?_eq_none.mpr
      intro x hx hxe
      have h1 := List.mem_filter.mp hx
      have h2 : x.user_id = uid := hS x h1.1 (by simpa using hxe)
      simp [h2] at h1
    simp only [FallbackSQLiteAdapter.getSessionAndUser,
      FallbackSQLiteAdapter.deleteUser]
    cases hie : tok.isEmpty
    · simp only [Bool.false_eq_true, if_false, hnone]
    · simp
  · intro k hA
    have hinner : ∀ u' ∈ fst.sql.users.filter (fun r => !(r.user_id == uid)),
        ((fst.sql.accounts.filter (fun r => !(r.user_id == uid))).filter (fun a =>
          u'.user_id == a.user_id && a.provider_user_id == k.providerAccountId &&
            a.provider == k.provider)).map (fun _ => u') = [] := by
      intro u' hu'
      have hfil : (fst.sql.accounts.filter (fun r => !(r.user_id == uid))).filter
          (fun a => u'.user_id == a.user_id &&
            a.provider_user_id == k.providerAccountId &&
            a.provider == k.provider) = [] := by
        apply List.filter_eq_nil_iff.mpr
        intro a ha hpa
        have h1 := List.mem_filter.mp ha
        rw [Bool.and_eq_true, Bool.and_eq_true] at hpa
        have h2 : a.user_id = uid :=
          hA a h1.1 (by simpa using hpa.1.2) (by simpa using hpa.2)
        simp [h2] at h1
      rw [hfil]
      rfl
    simp only [FallbackSQLiteAdapter.getUserByAccount,
      FallbackSQLiteAdapter.deleteUser]
    rw [flatMap_nil_of_inner _ _ hinner]
    simp [optOrElseNone]
  · intro tok s hfind hsuid
    simp only [MemoryAdapter.getSessionAndUser, MemoryAdapter.deleteUser]
    rw [hfind]
    simp only [hsuid, husers, Option.map_none']
  · intro k a hfind hauid
    simp only [MemoryAdapter.getUserByAccount, MemoryAdapter.deleteUser]
    rw [hfind]
    simp only [hauid, husers]

theorem deleteUser_cascade_amended_witness :
    (stC5.users.filter (fun x => x.id == "u1") = [userU1]) ∧
    (((SQLiteAdapter.deleteUser dbC6 "u1").sessions.filter
        (fun s => s.user_id == "u1") = [] ∧
      (SQLiteAdapter.deleteUser dbC6 "u1").accounts.filter
        (fun a => a.user_id == "u1") = []) ∧
     ((FallbackSQLiteAdapter.deleteUser fbC6 "u1").sql.sessions.filter
        (fun s => s.user_id == "u1") = [] ∧
      (FallbackSQLiteAdapter.deleteUser fbC6 "u1").sql.accounts.filter
        (fun a => a.user_id == "u1") = []) ∧
     (∀ tok : String,
       (∀ s ∈ dbC6.sessions, s.session_token = tok → s.user_id = "u1") →
       SQLiteAdapter.getSessionAndUser (SQLiteAdapter.deleteUser dbC6 "u1")
         (some tok) = none) ∧
     (∀ pid prov : String,
       (∀ a ∈ dbC6.accounts, a.provider_user_id = pid → a.provider = prov →
         a.user_id = "u1") →
       SQLiteAdapter.getUserByAccount (SQLiteAdapter.deleteUser dbC6 "u1")
         pid prov = none) ∧
     (∀ tok : String,
       (∀ s ∈ fbC6.sql.sessions, s.session_token = tok → s.user_id = "u1") →
       FallbackSQLiteAdapter.getSessionAndUser
         (FallbackSQLiteAdapter.deleteUser fbC6 "u1") (some tok) = none) ∧
     (∀ k : ProviderKey,
       (∀ a ∈ fbC6.sql.accounts, a.provider_user_id = k.providerAccountId →
         a.provider = k.provider → a.user_id = "u1") →
       FallbackSQLiteAdapter.getUserByAccount
         (FallbackSQLiteAdapter.deleteUser fbC6 "u1") k = none) ∧
     ((MemoryAdapter.deleteUser stC5 "u1").1.sessions = stC5.sessions ∧
      (MemoryAdapter.deleteUser stC5 "u1").1.accounts = stC5.accounts) ∧
     (∀ tok s, stC5.sessions.find? (fun x => x.sessionToken == tok) = some s →
       s.userId = some "u1" →
       MemoryAdapter.getSessionAndUser (MemoryAdapter.deleteUser stC5 "u1").1
         tok = none) ∧
     (∀ k a, stC5.accounts.find? (fun x =>
         x.providerAccountId == ProviderKey.providerAccountId k) = some a →
       a.userId = "u1" →
       MemoryAdapter.getUserByAccount (MemoryAdapter.deleteUser stC5 "u1").1 k =
         none)) :=
  ⟨by decide, deleteUser_cascade_amended dbC6 fbC6 stC5 "u1" userU1 (by decide)⟩

/-! Claim C7. -/

/-- C7 (counterexample): in the in-memory adapter, with two stored
accounts sharing providerAccountId X but with different providers
(accA: provider pA, owner u1; accB: provider pB, owner u2), the lookup
keyed (pB, X) returns the owner of the pA account rather than the owner
of the pB account, and unlinkAccount keyed (pB, X) removes the pA
account: neither operation acts only on the account whose provider
matches. -/
theorem account_lookup_ignores_provider_cx :
    MemoryAdapter.getUserByAccount stC7 ⟨"pB", "X"⟩ = some userU1 ∧
    accB.provider = "pB" ∧ accB.providerAccountId = "X" ∧ accB.userId = "u2" ∧
    userU1.id = "u1" ∧ ("u1" : String) ≠ "u2" ∧
    accA.provider = "pA" ∧ ("pA" : String) ≠ "pB" ∧
    (MemoryAdapter.unlinkAccount stC7 ⟨"pB", "X"⟩).1.accounts = [accB] := by
  decide

theorem mem_of_head?_eq_some (l : List α) (a : α) (h : l.head? = some a) :
    a ∈ l := by
  cases l with
  | nil => simp at h
  | cons x t =>
      rw [List.head?_cons] at h
      injection h with h
      subst h
      exact List.mem_cons_self x t

theorem unlink_filter_keeps (l : List SqlAccountRow) (pid prov : String)
    (b : SqlAccountRow) (hb : b ∈ l) (hprov : b.provider ≠ prov) :
    b ∈ l.filter (fun a => !(a.provider_user_id == pid && a.provider == prov)) :=
  List.mem_filter.mpr ⟨hb, by simp [hprov]⟩

theorem unlink_filter_removes (l : List SqlAccountRow) (pid prov : String)
    (b : SqlAccountRow)
    (hb : b ∈ l.filter
      (fun a => !(a.provider_user_id == pid && a.provider == prov))) :
    ¬(b.provider_user_id = pid ∧ b.provider = prov) := by
  have h := (List.mem_filter.mp hb).2
  intro hc
  simp [hc.1, hc.2] at h

theorem join_lookup_fresh (users : List SqlUserRow) (accts : List SqlAccountRow)
    (row : SqlAccountRow) (u : SqlUserRow)
    (hu : users.filter (fun x => x.user_id == row.user_id) = [u])
    (hfresh : ∀ b ∈ accts, ¬(b.provider_user_id = row.provider_user_id ∧
       b.provider = row.provider)) :
    (users.flatMap (fun v =>
      ((accts ++ [row]).filter (fun a =>
        v.user_id == a.user_id && a.provider_user_id == row.provider_user_id &&
          a.provider == row.provider)).map (fun _ => v))).head? = some u := by
  have hinner : ∀ v : SqlUserRow,
      (accts ++ [row]).filter (fun a =>
        v.user_id == a.user_id && a.provider_user_id == row.provider_user_id &&
          a.provider == row.provider) =
      if v.user_id == row.user_id then [row] else [] := by
    intro v
    rw [List.filter_append]
    have h1 : accts.filter (fun a =>
        v.user_id == a.user_id && a.provider_user_id == row.provider_user_id &&
          a.provider == row.provider) = [] := by
      apply List.filter_eq_nil_iff.mpr
      intro a ha hpa
      rw [Bool.and_eq_true, Bool.and_eq_true] at hpa
      exact hfresh a ha ⟨by simpa using hpa.1.2, by simpa using hpa.2⟩
    rw [h1, List.nil_append]
    cases hv : v.user_id == row.user_id <;>
      simp [List.filter_cons, hv]
  revert hu
  induction users with
  | nil =>
      intro hu
      simp at hu
  | cons v t ih =>
      intro hu
      rw [List.flatMap_cons, hinner v]
      cases hv : v.user_id == row.user_id
      · rw [List.filter_cons_of_neg (by simp [hv])] at hu
        simp only [Bool.false_eq_true, if_false, List.map_nil, List.nil_append]
        exact ih hu
      · rw [List.filter_cons_of_pos (by simp [hv])] at hu
        injection hu with h1 h2
        subst h1
        simp

/-- C7 (amended): after linking an account whose providerAccountId is
not already present, getUserByAccount with that pair returns the owning
user, in every adapter.  The SQLite adapters key lookup and unlink on
the full (provider, providerAccountId) composite: unlink keeps every
row whose provider differs and removes exactly the rows matching both
fields, and a successful lookup is always witnessed by an account
matching both fields.  The in-memory adapter ignores the provider
component: its lookup and unlink results are unchanged under any
provider value in the key, so they act on the first account matching
providerAccountId alone. -/
theorem account_composite_key_amended
    (st : MemState) (db : SqlDb) (fst : FbState)
    (p1 p2 pid prov lid flid rnd : String)
    (acc acm : AccountObj) (u : UserObj) (su fu : SqlUserRow) :
    (MemoryAdapter.getUserByAccount st ⟨p1, pid⟩ =
       MemoryAdapter.getUserByAccount st ⟨p2, pid⟩) ∧
    (MemoryAdapter.unlinkAccount st ⟨p1, pid⟩ =
       MemoryAdapter.unlinkAccount st ⟨p2, pid⟩) ∧
    ((∀ b ∈ st.accounts, b.providerAccountId ≠ acm.providerAccountId) →
     st.users.find? (fun x => x.id == acm.userId) = some u →
     MemoryAdapter.getUserByAccount (MemoryAdapter.linkAccount st acm rnd).1
       ⟨acm.provider, acm.providerAccountId⟩ = some u) ∧
    (∀ b ∈ db.accounts, b.provider ≠ prov →
       b ∈ (SQLiteAdapter.unlinkAccount db pid prov).accounts) ∧
    (∀ b ∈ (SQLiteAdapter.unlinkAccount db pid prov).accounts,
       ¬(b.provider_user_id = pid ∧ b.provider = prov)) ∧
    ((db.users.filter (fun x => x.user_id == acc.userId) = [su]) →
     (∀ b ∈ db.accounts, ¬(b.provider_user_id = acc.providerAccountId ∧
        b.provider = acc.provider)) →
     SQLiteAdapter.getUserByAccount (SQLiteAdapter.linkAccount db lid acc)
       acc.providerAccountId acc.provider = some su) ∧
    (∀ v, SQLiteAdapter.getUserByAccount db pid prov = some v →
       ∃ b ∈ db.accounts, b.provider_user_id = pid ∧ b.provider = prov ∧
         b.user_id = v.user_id) ∧
    (∀ b ∈ fst.sql.accounts, b.provider ≠ prov →
       b ∈ (FallbackSQLiteAdapter.unlinkAccount fst ⟨prov, pid⟩).1.sql.accounts) ∧
    (∀ b ∈ (FallbackSQLiteAdapter.unlinkAccount fst ⟨prov, pid⟩).1.sql.accounts,
       ¬(b.provider_user_id = pid ∧ b.provider = prov)) ∧
    ((fst.sql.users.filter (fun x => x.user_id == acc.userId) = [fu]) →
     (∀ b ∈ fst.sql.accounts, ¬(b.provider_user_id = acc.providerAccountId ∧
        b.provider = acc.provider)) →
     FallbackSQLiteAdapter.getUserByAccount
       (FallbackSQLiteAdapter.linkAccount fst flid acc)
       ⟨acc.provider, acc.providerAccountId⟩ = some fu) ∧
    (∀ v, FallbackSQLiteAdapter.getUserByAccount fst ⟨prov, pid⟩ = some v →
       ∃ b ∈ fst.sql.accounts, b.provider_user_id = pid ∧ b.provider = prov ∧
         b.user_id = v.user_id) := by
  refine ⟨rfl, rfl, ?_, ?_, ?_, ?_, ?_, ?_, ?_, ?_, ?_⟩
  · intro hfresh hfind
    simp only [MemoryAdapter.getUserByAccount, MemoryAdapter.linkAccount]
    rw [List.find?_append,
      List.find?_eq_none.mpr (fun b hb => by simp [hfresh b hb])]
    simp [hfind]
  · intro b hb hprov
    simp only [SQLiteAdapter.unlinkAccount]
    exact unlink_filter_keeps _ _ _ _ hb hprov
  · intro b hb
    simp only [SQLiteAdapter.unlinkAccount] at hb
    exact unlink_filter_removes _ _ _ _ hb
  · intro hu hfresh
    simp only [SQLiteAdapter.getUserByAccount, SQLiteAdapter.linkAccount]
    exact join_lookup_fresh db.users db.accounts
      ⟨lid, acc.userId, acc.provider, acc.type, acc.providerAccountId,
       acc.access_token, acc.expires_at, acc.refresh_token, acc.id_token,
       acc.scope, acc.session_state, acc.token_type⟩ su hu hfresh
  · intro v hv
    simp only [SQLiteAdapter.getUserByAccount] at hv
    have hvmem := mem_of_head?_eq_some _ _ hv
    rcases List.mem_flatMap.mp hvmem with ⟨x, hx, hvx⟩
    rcases List.mem_map.mp hvx with ⟨a, ha, rfl⟩
    have hmemf := List.mem_filter.mp ha
    have hpa := hmemf.2
    rw [Bool.and_eq_true, Bool.and_eq_true] at hpa
    refine ⟨a, hmemf.1, by simpa using hpa.1.2, by simpa using hpa.2, ?_⟩
    have h3 : x.user_id = a.user_id := by simpa using hpa.1.1
    exact h3.symm
  · intro b hb hprov
    simp only [FallbackSQLiteAdapter.unlinkAccount]
    exact unlink_filter_keeps _ _ _ _ hb hprov
  · intro b hb
    simp only [FallbackSQLiteAdapter.unlinkAccount] at hb
    exact unlink_filter_removes _ _ _ _ hb
  · intro hu hfresh
    simp only [FallbackSQLiteAdapter.getUserByAccount,
      FallbackSQLiteAdapter.linkAccount, optOrElseNone]
    exact join_lookup_fresh fst.sql.users fst.sql.accounts
      ⟨flid, acc.userId, acc.provider, acc.type, acc.providerAccountId,
       acc.access_token, acc.expires_at, acc.refresh_token, acc.id_token,
       acc.scope, acc.session_state, acc.token_type⟩ fu hu hfresh
  · intro v hv
    simp only [FallbackSQLiteAdapter.getUserByAccount, optOrElseNone] at hv
    have hvmem := mem_of_head?_eq_some _ _ hv
    rcases List.mem_flatMap.mp hvmem with ⟨x, hx, hvx⟩
    rcases List.mem_map.mp hvx with ⟨a, ha, rfl⟩
    have hmemf := List.mem_filter.mp ha
    have hpa := hmemf.2
    rw [Bool.and_eq_true, Bool.and_eq_true] at hpa
    refine ⟨a, hmemf.1, by simpa using hpa.1.2, by simpa using hpa.2, ?_⟩
    have h3 : x.user_id = a.user_id := by simpa using hpa.1.1
    exact h3.symm

theorem account_composite_key_amended_witness :
    (MemoryAdapter.getUserByAccount stC7 ⟨"pA", "X"⟩ =
       MemoryAdapter.getUserByAccount stC7 ⟨"pB", "X"⟩) ∧
    (MemoryAdapter.unlinkAccount stC7 ⟨"pA", "X"⟩ =
       MemoryAdapter.unlinkAccount stC7 ⟨"pB", "X"⟩) ∧
    ((∀ b ∈ stC7.accounts, b.providerAccountId ≠ accNew.providerAccountId) →
     stC7.users.find? (fun x => x.id == accNew.userId) = some userU1 →
     MemoryAdapter.getUserByAccount (MemoryAdapter.linkAccount stC7 accNew "r7").1
       ⟨accNew.provider, accNew.providerAccountId⟩ = some userU1) ∧
    (∀ b ∈ dbC7.accounts, b.provider ≠ "pB" →
       b ∈ (SQLiteAdapter.unlinkAccount dbC7 "X" "pB").accounts) ∧
    (∀ b ∈ (SQLiteAdapter.unlinkAccount dbC7 "X" "pB").accounts,
       ¬(b.provider_user_id = "X" ∧ b.provider = "pB")) ∧
    ((dbC7.users.filter (fun x => x.user_id == accNew.userId) = [uRow1]) →
     (∀ b ∈ dbC7.accounts, ¬(b.provider_user_id = accNew.providerAccountId ∧
        b.provider = accNew.provider)) →
     SQLiteAdapter.getUserByAccount (SQLiteAdapter.linkAccount dbC7 "l1" accNew)
       accNew.providerAccountId accNew.provider = some uRow1) ∧
    (∀ v, SQLiteAdapter.getUserByAccount dbC7 "X" "pB" = some v →
       ∃ b ∈ dbC7.accounts, b.provider_user_id = "X" ∧ b.provider = "pB" ∧
         b.user_id = v.user_id) ∧
    (∀ b ∈ (FbState.mk dbC7 emptyMem).sql.accounts, b.provider ≠ "pB" →
       b ∈ (FallbackSQLiteAdapter.unlinkAccount ⟨dbC7, emptyMem⟩
         ⟨"pB", "X"⟩).1.sql.accounts) ∧
    (∀ b ∈ (FallbackSQLiteAdapter.unlinkAccount ⟨dbC7, emptyMem⟩
        ⟨"pB", "X"⟩).1.sql.accounts,
       ¬(b.provider_user_id = "X" ∧ b.provider = "pB")) ∧
    (((FbState.mk dbC7 emptyMem).sql.users.filter
        (fun x => x.user_id == accNew.userId) = [uRow1]) →
     (∀ b ∈ (FbState.mk dbC7 emptyMem).sql.accounts,
        ¬(b.provider_user_id = accNew.providerAccountId ∧
          b.provider = accNew.provider)) →
     FallbackSQLiteAdapter.getUserByAccount
       (FallbackSQLiteAdapter.linkAccount ⟨dbC7, emptyMem⟩ "l2" accNew)
       ⟨accNew.provider, accNew.providerAccountId⟩ = some uRow1) ∧
    (∀ v, FallbackSQLiteAdapter.getUserByAccount ⟨dbC7, emptyMem⟩ ⟨"pB", "X"⟩ =
        some v →
       ∃ b ∈ (FbState.mk dbC7 emptyMem).sql.accounts,
         b.provider_user_id = "X" ∧ b.provider = "pB" ∧
         b.user_id = v.user_id) :=
  account_composite_key_amended stC7 dbC7 ⟨dbC7, emptyMem⟩ "pA" "pB" "X" "pB"
    "l1" "l2" "r7" accNew accNew userU1 uRow1 uRow1

/-! Claim C9. -/

/-- C9 (counterexample): in the fallback variant the secondary adapter
is a Proxy whose every method returns null and which stores nothing:
after a createUser through the fallback adapter the secondary store
still holds no users, whereas the corresponding in-memory-adapter write
on the same store would have stored the created user.  The write is
therefore not mirrored to a secondary in-memory store. -/
theorem fallback_no_mirror_cx :
    (FallbackSQLiteAdapter.createUser ⟨emptySql, emptyMem⟩ "u1"
      uinpC8).1.mem.users = [] ∧
    (MemoryAdapter.createUser emptyMem dataC8 "r1").1.users =
      [⟨"userId_r1", some "A", some "a@x.com", none, none⟩] := by decide

theorem fb_updateUser_mem (st : FbState) (p : UserPatch) :
    (FallbackSQLiteAdapter.updateUser st p).1.mem = st.mem := by
  unfold FallbackSQLiteAdapter.updateUser
  dsimp only
  repeat' split
  all_goals rfl

theorem fb_updateSession_mem (st : FbState) (p : SessionPatch) :
    (FallbackSQLiteAdapter.updateSession st p).1.mem = st.mem := by
  unfold FallbackSQLiteAdapter.updateSession
  dsimp only
  repeat' split
  all_goals rfl

theorem fb_createSession_mem (st : FbState) (sid : String) (inp : SessionInput) :
    (FallbackSQLiteAdapter.createSession st sid inp).1.mem = st.mem := by
  unfold FallbackSQLiteAdapter.createSession FallbackSQLiteAdapter.createSessionAt
  dsimp only
  repeat' split
  all_goals rfl

theorem fb_createVerificationToken_mem (st : FbState) (t : VTokObj) :
    (FallbackSQLiteAdapter.createVerificationToken st t).1.mem = st.mem := by
  unfold FallbackSQLiteAdapter.createVerificationToken
  dsimp only
  repeat' split
  all_goals rfl

/-- C9 (amended): in the fallback variant the secondary adapter is a
stub Proxy returning null from every method (the import of the real
in-memory adapter is commented out): every operation invokes it but its
store never changes - each operation leaves the mem component of the
state unchanged - so mirrored writes store nothing; the reads getUser,
getUserByEmail and getUserByAccount fall back (rv ?? memRv) to its null
result when the relational read yields no row, hence return not-found;
and getSessionAndUser returns null directly when the relational read
yields no session row, without consulting the secondary result. -/
theorem fallback_stub_secondary_amended
    (st : FbState) (nid lid sid : String) (uinp : UserInput) (up : UserPatch)
    (uid uid2 em tok idf tk tok2 : String) (sinp : SessionInput)
    (sp : SessionPatch) (acc : AccountObj) (k k2 : ProviderKey) (vt : VTokObj) :
    ((FallbackSQLiteAdapter.createUser st nid uinp).1.mem = st.mem ∧
     (FallbackSQLiteAdapter.updateUser st up).1.mem = st.mem ∧
     (FallbackSQLiteAdapter.deleteUser st uid).mem = st.mem ∧
     (FallbackSQLiteAdapter.createSession st sid sinp).1.mem = st.mem ∧
     (FallbackSQLiteAdapter.updateSession st sp).1.mem = st.mem ∧
     (FallbackSQLiteAdapter.deleteSession st tok).mem = st.mem ∧
     (FallbackSQLiteAdapter.linkAccount st lid acc).mem = st.mem ∧
     (FallbackSQLiteAdapter.unlinkAccount st k).1.mem = st.mem ∧
     (FallbackSQLiteAdapter.createVerificationToken st vt).1.mem = st.mem ∧
     (FallbackSQLiteAdapter.useVerificationToken st idf tk).1.mem = st.mem) ∧
    ((∀ x ∈ st.sql.users, x.user_id ≠ uid2) →
       FallbackSQLiteAdapter.getUser st uid2 = none) ∧
    ((∀ x ∈ st.sql.users, x.email ≠ some em) →
       FallbackSQLiteAdapter.getUserByEmail st em = none) ∧
    ((∀ b ∈ st.sql.accounts, ¬(b.provider_user_id = k2.providerAccountId ∧
        b.provider = k2.provider)) →
       FallbackSQLiteAdapter.getUserByAccount st k2 = none) ∧
    ((∀ s ∈ st.sql.sessions, s.session_token ≠ tok2) →
       FallbackSQLiteAdapter.getSessionAndUser st (some tok2) = none) := by
  refine ⟨⟨rfl, fb_updateUser_mem st up, rfl, fb_createSession_mem st sid sinp,
    fb_updateSession_mem st sp, rfl, rfl, rfl,
    fb_createVerificationToken_mem st vt, rfl⟩, ?_, ?_, ?_, ?_⟩
  · intro h
    simp only [FallbackSQLiteAdapter.getUser]
    rw [List.find?_eq_none.mpr (fun x hx => by simp [h x hx])]
    rfl
  · intro h
    simp only [FallbackSQLiteAdapter.getUserByEmail]
    rw [List.find?_eq_none.mpr (fun x hx => by simp [h x hx])]
    rfl
  · intro h
    simp only [FallbackSQLiteAdapter.getUserByAccount]
    have hinner : ∀ u' ∈ st.sql.users,
        (st.sql.accounts.filter (fun a =>
          u'.user_id == a.user_id && a.provider_user_id == k2.providerAccountId &&
            a.provider == k2.provider)).map (fun _ => u') = [] := by
      intro u' hu'
      have hfil : st.sql.accounts.filter (fun a =>
          u'.user_id == a.user_id && a.provider_user_id == k2.providerAccountId &&
            a.provider == k2.provider) = [] := by
        apply List.filter_eq_nil_iff.mpr
        intro a ha hpa
        rw [Bool.and_eq_true, Bool.and_eq_true] at hpa
        exact h a ha ⟨by simpa using hpa.1.2, by simpa using hpa.2⟩
      rw [hfil]
      rfl
    rw [flatMap_nil_of_inner _ _ hinner]
    rfl
  · intro h
    have hnone : st.sql.sessions.find? (fun s => s.session_token == tok2) = none :=
      List.find?_eq_none.mpr (fun x hx hxe => (h x hx) (by simpa using hxe))
    simp only [FallbackSQLiteAdapter.getSessionAndUser]
    cases hie : tok2.isEmpty
    · simp only [Bool.false_eq_true, if_false, hnone]
    · simp

theorem fallback_stub_secondary_amended_witness :
    ((FallbackSQLiteAdapter.createUser fbC9 "u9" uinpC8).1.mem = fbC9.mem ∧
     (FallbackSQLiteAdapter.updateUser fbC9
        ⟨some "u1", none, none, none, none⟩).1.mem = fbC9.mem ∧
     (FallbackSQLiteAdapter.deleteUser fbC9 "u1").mem = fbC9.mem ∧
     (FallbackSQLiteAdapter.createSession fbC9 "s9"
        ⟨some "tokN", some "u1", .num 3⟩).1.mem = fbC9.mem ∧
     (FallbackSQLiteAdapter.updateSession fbC9
        ⟨some "tokA", none, some 4⟩).1.mem = fbC9.mem ∧
     (FallbackSQLiteAdapter.deleteSession fbC9 "tokA").mem = fbC9.mem ∧
     (FallbackSQLiteAdapter.linkAccount fbC9 "l9" accNew).mem = fbC9.mem ∧
     (FallbackSQLiteAdapter.unlinkAccount fbC9 ⟨"pA", "X"⟩).1.mem = fbC9.mem ∧
     (FallbackSQLiteAdapter.createVerificationToken fbC9 vt0).1.mem = fbC9.mem ∧
     (FallbackSQLiteAdapter.useVerificationToken fbC9 "i" "t").1.mem = fbC9.mem) ∧
    ((∀ x ∈ fbC9.sql.users, x.user_id ≠ "zz") →
       FallbackSQLiteAdapter.getUser fbC9 "zz" = none) ∧
    ((∀ x ∈ fbC9.sql.users, x.email ≠ some "zz@x.com") →
       FallbackSQLiteAdapter.getUserByEmail fbC9 "zz@x.com" = none) ∧
    ((∀ b ∈ fbC9.sql.accounts,
        ¬(b.provider_user_id = ProviderKey.providerAccountId ⟨"pZ", "Z"⟩ ∧
          b.provider = ProviderKey.provider ⟨"pZ", "Z"⟩)) →
       FallbackSQLiteAdapter.getUserByAccount fbC9 ⟨"pZ", "Z"⟩ = none) ∧
    ((∀ s ∈ fbC9.sql.sessions, s.session_token ≠ "tokZ") →
       FallbackSQLiteAdapter.getSessionAndUser fbC9 (some "tokZ") = none) :=
  fallback_stub_secondary_amended fbC9 "u9" "l9" "s9" uinpC8
    ⟨some "u1", none, none, none, none⟩ "u1" "zz" "zz@x.com" "tokA" "i" "t"
    "tokZ" ⟨some "tokN", some "u1", .num 3⟩ ⟨some "tokA", none, some 4⟩
    accNew ⟨"pA", "X"⟩ ⟨"pZ", "Z"⟩ vt0

example :
    (MemoryAdapter.useVerificationToken ⟨[], [], [], [⟨some "i", some 5, some "t"⟩]⟩
      "i" "t").2 = some ⟨some "i", some 5, some "t"⟩ := by decide

example :
    SQLiteAdapter.createSession ⟨[], [], [], []⟩ "s1"
      ⟨some "tokA", some "u1", .date ⟨2000000⟩⟩ =
    (⟨[], [], [⟨"s1", "u1", 2000, "tokA"⟩], []⟩,
     .ok ⟨some "s1", "tokA", "u1", ⟨2000⟩⟩) := by decide

example :
    (SQLiteAdapter.useVerificationToken ⟨[], [], [], [⟨"i", 5, "t"⟩]⟩ "i" "t").2 =
      some ⟨"i", 5, "t"⟩ := by decide
